import Mathlib

/-!
Verification of the uPyRTKBase correction-relay pipeline.

This file gives a shallow embedding of the core of the repository:
the CRC-24Q engine and the RTCM3 frame decoder (`rtcm_decoder.py`),
the NTRIP caster client's connect classification and relay send
(`ntrip_caster.py`), and the receiver configuration reconciler and AGC
classification (`um980_config.py`, `rtcm_params.py`).  Byte strings are
`List Nat` (each entry a byte value), text is `List Char`, Python `None`
is `Option.none`, and the decoder's possible uncaught `IndexError` is an
`Except` result carrying the object state at the moment of the raise.
-/

/-! ## CRC24Q engine (`RTCMDecoder._crc24q`) -/

/-- One inner-loop step of `_crc24q`: `crc <<= 1; if crc & 0x1000000: crc ^= 0x1864CFB`. -/
def crcStep (crc : Nat) : Nat :=
  let c := crc <<< 1
  if c &&& 0x1000000 ≠ 0 then c ^^^ 0x1864CFB else c

/-- Per-byte body of `_crc24q`: `crc ^= byte << 16` followed by 8 inner steps. -/
def crcByte (crc b : Nat) : Nat := crcStep^[8] (crc ^^^ (b <<< 16))

/-- `RTCMDecoder._crc24q(data)`: fold the per-byte body over the data starting
from 0, masking to 24 bits at the end (`return crc & 0xFFFFFF`). -/
def _crc24q (data : List Nat) : Nat := (data.foldl crcByte 0) &&& 0xFFFFFF

/-- Reference inner step, written from the spec's words: shift left 1 and,
if bit 24 is set, XOR with the polynomial `0x1864CFB`. -/
def crcSpecStep (crc : Nat) : Nat :=
  let c := crc <<< 1
  if c.testBit 24 then c ^^^ 0x1864CFB else c

/-- Reference CRC-24Q, written from the spec's words: accumulator starts at 0;
each byte is XORed into bits 16 to 23, then 8 reference steps run, and the
accumulator is masked to 24 bits after each byte. -/
def crc24q_ref (data : List Nat) : Nat :=
  data.foldl (fun crc b => (crcSpecStep^[8] (crc ^^^ (b <<< 16))) &&& 0xFFFFFF) 0

theorem and_two_pow_24_ne_zero_iff (n : Nat) :
    (n &&& 0x1000000 ≠ 0) ↔ n.testBit 24 = true := by
  have h := Nat.and_two_pow n 24
  norm_num at h
  rw [show (0x1000000 : Nat) = 16777216 from rfl, h]
  cases hb : n.testBit 24 <;> simp

theorem lt_of_testBit24_false {n : Nat} (h1 : n < 0x2000000)
    (h2 : n.testBit 24 = false) : n < 0x1000000 := by
  rw [Nat.testBit_to_div_mod] at h2
  simp only [decide_eq_false_iff_not] at h2
  have e : (2 : Nat) ^ 24 = 16777216 := by norm_num
  rw [e] at h2
  omega

theorem crcStep_lt {c : Nat} (h : c < 0x1000000) : crcStep c < 0x1000000 := by
  unfold crcStep
  have h2 : c <<< 1 < 0x2000000 := by rw [Nat.shiftLeft_eq]; omega
  by_cases hb : (c <<< 1) &&& 0x1000000 ≠ 0
  · rw [if_pos hb]
    have ht : (c <<< 1).testBit 24 = true := (and_two_pow_24_ne_zero_iff _).mp hb
    apply lt_of_testBit24_false
    · have hp : (0x1864CFB : Nat) < 2 ^ 25 := by norm_num
      have hc : c <<< 1 < 2 ^ 25 := by norm_num at h2 ⊢; omega
      have := Nat.xor_lt_two_pow hc hp
      norm_num at this ⊢
      omega
    · rw [Nat.testBit_xor, ht]
      have : (0x1864CFB : Nat).testBit 24 = true := by decide
      rw [this]
      rfl
  · rw [if_neg hb]
    push_neg at hb
    apply lt_of_testBit24_false h2
    by_contra hcon
    rw [Bool.not_eq_false] at hcon
    have := (and_two_pow_24_ne_zero_iff (c <<< 1)).mpr hcon
    exact this hb

theorem crcIter_lt (k : Nat) : ∀ {c : Nat}, c < 0x1000000 → crcStep^[k] c < 0x1000000 := by
  induction k with
  | zero => intro c h; simpa using h
  | succ n ih =>
    intro c h
    rw [Function.iterate_succ_apply]
    exact ih (crcStep_lt h)

theorem crcByte_lt {c b : Nat} (hc : c < 0x1000000) (hb : b < 256) :
    crcByte c b < 0x1000000 := by
  unfold crcByte
  apply crcIter_lt
  have h1 : c < 2 ^ 24 := by norm_num at hc ⊢; omega
  have h2 : b <<< 16 < 2 ^ 24 := by rw [Nat.shiftLeft_eq]; norm_num; omega
  have := Nat.xor_lt_two_pow h1 h2
  norm_num at this ⊢
  omega

theorem crc_foldl_lt : ∀ (data : List Nat) (c : Nat), c < 0x1000000 →
    (∀ b ∈ data, b < 256) → data.foldl crcByte c < 0x1000000 := by
  intro data
  induction data with
  | nil => intro c h _; simpa using h
  | cons b bs ih =>
    intro c h hall
    simp only [List.foldl_cons]
    exact ih _ (crcByte_lt h (hall b (by simp))) (fun x hx => hall x (by simp [hx]))

theorem crcStep_eq_specStep : crcStep = crcSpecStep := by
  funext c
  simp only [crcStep, crcSpecStep]
  by_cases hb : (c <<< 1) &&& 0x1000000 ≠ 0
  · rw [if_pos hb, if_pos ((and_two_pow_24_ne_zero_iff _).mp hb)]
  · have hz : (c <<< 1) &&& 0x1000000 = 0 := not_not.mp hb
    have ht : (c <<< 1).testBit 24 = false := by
      by_contra hcon
      rw [Bool.not_eq_false] at hcon
      exact hb ((and_two_pow_24_ne_zero_iff (c <<< 1)).mpr hcon)
    rw [if_neg hb, ht]
    simp

theorem mask24_eq_self {n : Nat} (h : n < 0x1000000) : n &&& 0xFFFFFF = n := by
  have e : (0xFFFFFF : Nat) = 2 ^ 24 - 1 := by norm_num
  rw [e, Nat.and_pow_two_sub_one_eq_mod]
  exact Nat.mod_eq_of_lt (by norm_num at h ⊢; omega)

theorem crc_foldl_masked : ∀ (data : List Nat) (c : Nat), c < 0x1000000 →
    (∀ b ∈ data, b < 256) →
    data.foldl (fun crc b => (crcByte crc b) &&& 0xFFFFFF) c
      = (data.foldl crcByte c) &&& 0xFFFFFF := by
  intro data
  induction data with
  | nil =>
    intro c h _
    simp [mask24_eq_self h]
  | cons b bs ih =>
    intro c h hall
    simp only [List.foldl_cons]
    rw [mask24_eq_self (crcByte_lt h (hall b (by simp)))]
    exact ih _ (crcByte_lt h (hall b (by simp))) (fun x hx => hall x (by simp [hx]))

/-- C1: `_crc24q` agrees with the reference CRC-24Q (accumulator 0; per byte,
XOR into bits 16 to 23 then 8 shift/XOR steps with polynomial `0x1864CFB`,
masked to 24 bits after each byte); on the empty input it returns 0, and the
result always lies below `2 ^ 24`. -/
theorem crc24q_matches_reference (data : List Nat) (h : ∀ b ∈ data, b < 256) :
    _crc24q data = crc24q_ref data ∧ _crc24q [] = 0 ∧ _crc24q data < 0x1000000 := by
  have hfold : data.foldl crcByte 0 < 0x1000000 := crc_foldl_lt data 0 (by norm_num) h
  have hmain : _crc24q data = crc24q_ref data := by
    unfold _crc24q crc24q_ref
    rw [← crcStep_eq_specStep]
    rw [show (fun (crc b : Nat) => crcStep^[8] (crc ^^^ b <<< 16) &&& 0xFFFFFF)
          = (fun (crc b : Nat) => (crcByte crc b) &&& 0xFFFFFF) from rfl]
    exact (crc_foldl_masked data 0 (by norm_num) h).symm
  refine ⟨hmain, by decide, ?_⟩
  unfold _crc24q
  rw [mask24_eq_self hfold]
  exact hfold

theorem crc24q_matches_reference_witness :
    (∀ b ∈ [0xD3, 0x00, 0x03, 0x3E, 0xD0, 0x00], b < 256) ∧
    (_crc24q [0xD3, 0x00, 0x03, 0x3E, 0xD0, 0x00]
        = crc24q_ref [0xD3, 0x00, 0x03, 0x3E, 0xD0, 0x00] ∧
      _crc24q [] = 0 ∧
      _crc24q [0xD3, 0x00, 0x03, 0x3E, 0xD0, 0x00] < 0x1000000) :=
  ⟨by decide, crc24q_matches_reference _ (by decide)⟩

/-! ## RTCM3 frame decoder (`RTCMDecoder`) -/

/-- Mutable attributes of an `RTCMDecoder` object: receive buffer and the two
counters.  The `decoded` field records the frames for which `_decode_message`
ran to completion (the decoded-message events the source prints). -/
structure DecoderState where
  buffer : List Nat
  msg_count : Nat
  error_count : Nat
  decoded : List (List Nat)
deriving DecidableEq, Repr

/-- The length field read in `process`: `((buffer[1] & 0x03) << 8) | buffer[2]`. -/
def msgLen (buf : List Nat) : Nat := ((buf.getD 1 0) &&& 0x03) <<< 8 ||| (buf.getD 2 0)

/-- `RTCMDecoder._verify_crc`: compare the trailing 3-byte CRC with the
CRC-24Q of the rest of the frame. -/
def _verify_crc (frame : List Nat) : Bool :=
  ((frame.getD (frame.length - 3) 0) <<< 16 |||
   (frame.getD (frame.length - 2) 0) <<< 8 |||
   (frame.getD (frame.length - 1) 0))
    == _crc24q (frame.take (frame.length - 3))

/-- `RTCMDecoder._decode_message`, abstracted to its indexing behaviour:
returns `false` exactly when one of the payload accesses
(`payload[0]`/`payload[1]` for the message type, `payload[2]` in the
branches for station-ID, ephemeris and MSM messages) would raise
`IndexError`, and `true` when the decode runs to completion. -/
def _decode_message (frame : List Nat) : Bool :=
  let payload := (frame.take (frame.length - 3)).drop 3
  if payload.length < 2 then false
  else
    let msg_type := ((payload.getD 0 0) <<< 4) ||| ((payload.getD 1 0) >>> 4)
    if msg_type = 1005 ∨ msg_type = 1006 then decide (3 ≤ payload.length)
    else if 1001 ≤ msg_type ∧ msg_type ≤ 1004 then decide (3 ≤ payload.length)
    else if 1009 ≤ msg_type ∧ msg_type ≤ 1012 then decide (3 ≤ payload.length)
    else if msg_type = 1019 ∨ msg_type = 1020 ∨ msg_type = 1042 ∨ msg_type = 1044
        ∨ msg_type = 1045 ∨ msg_type = 1046 then decide (3 ≤ payload.length)
    else if msg_type = 1077 ∨ msg_type = 1087 ∨ msg_type = 1097 ∨ msg_type = 1107
        ∨ msg_type = 1117 ∨ msg_type = 1127 then decide (3 ≤ payload.length)
    else true

/-- The `while` loop of `RTCMDecoder.process`.  A `.error` result models an
uncaught `IndexError` escaping from `_decode_message`, carrying the object
state at the moment of the raise (the offending frame is still at the head of
the buffer, and `msg_count` has not been incremented). -/
def processLoop (s : DecoderState) : Except DecoderState DecoderState :=
  if h3 : s.buffer.length < 3 then .ok s
  else if s.buffer.getD 0 0 ≠ 0xD3 then
    processLoop ⟨s.buffer.tail, s.msg_count, s.error_count, s.decoded⟩
  else if s.buffer.length < 6 then .ok s
  else if s.buffer.length < 3 + msgLen s.buffer + 3 then .ok s
  else if _verify_crc (s.buffer.take (3 + msgLen s.buffer + 3)) then
    if _decode_message (s.buffer.take (3 + msgLen s.buffer + 3)) then
      processLoop ⟨s.buffer.drop (3 + msgLen s.buffer + 3), s.msg_count + 1,
        s.error_count, s.decoded ++ [s.buffer.take (3 + msgLen s.buffer + 3)]⟩
    else .error s
  else
    processLoop ⟨s.buffer.drop (3 + msgLen s.buffer + 3), s.msg_count,
      s.error_count + 1, s.decoded⟩
termination_by s.buffer.length
decreasing_by
  all_goals simp only [List.length_tail, List.length_drop]
  all_goals omega

theorem processLoop_stop_short (s : DecoderState) (h : s.buffer.length < 3) :
    processLoop s = .ok s := by
  rw [processLoop.eq_def, dif_pos h]

theorem processLoop_skip (s : DecoderState) (h3 : ¬ s.buffer.length < 3)
    (hp : s.buffer.getD 0 0 ≠ 0xD3) :
    processLoop s = processLoop ⟨s.buffer.tail, s.msg_count, s.error_count, s.decoded⟩ := by
  rw [processLoop.eq_def, dif_neg h3, if_pos hp]

theorem processLoop_stop_header (s : DecoderState) (h3 : ¬ s.buffer.length < 3)
    (hp : s.buffer.getD 0 0 = 0xD3) (h6 : s.buffer.length < 6) :
    processLoop s = .ok s := by
  rw [processLoop.eq_def, dif_neg h3, if_neg (by simp only [ne_eq, not_not]; exact hp), if_pos h6]

theorem processLoop_stop_incomplete (s : DecoderState) (h3 : ¬ s.buffer.length < 3)
    (hp : s.buffer.getD 0 0 = 0xD3) (h6 : ¬ s.buffer.length < 6)
    (hfl : s.buffer.length < 3 + msgLen s.buffer + 3) :
    processLoop s = .ok s := by
  rw [processLoop.eq_def, dif_neg h3, if_neg (by simp only [ne_eq, not_not]; exact hp), if_neg h6, if_pos hfl]

theorem processLoop_frame_ok (s : DecoderState) (h3 : ¬ s.buffer.length < 3)
    (hp : s.buffer.getD 0 0 = 0xD3) (h6 : ¬ s.buffer.length < 6)
    (hfl : ¬ s.buffer.length < 3 + msgLen s.buffer + 3)
    (hcrc : _verify_crc (s.buffer.take (3 + msgLen s.buffer + 3)) = true)
    (hdec : _decode_message (s.buffer.take (3 + msgLen s.buffer + 3)) = true) :
    processLoop s = processLoop ⟨s.buffer.drop (3 + msgLen s.buffer + 3),
      s.msg_count + 1, s.error_count,
      s.decoded ++ [s.buffer.take (3 + msgLen s.buffer + 3)]⟩ := by
  rw [processLoop.eq_def, dif_neg h3, if_neg (by simp only [ne_eq, not_not]; exact hp), if_neg h6, if_neg hfl,
    if_pos hcrc, if_pos hdec]

theorem processLoop_frame_raise (s : DecoderState) (h3 : ¬ s.buffer.length < 3)
    (hp : s.buffer.getD 0 0 = 0xD3) (h6 : ¬ s.buffer.length < 6)
    (hfl : ¬ s.buffer.length < 3 + msgLen s.buffer + 3)
    (hcrc : _verify_crc (s.buffer.take (3 + msgLen s.buffer + 3)) = true)
    (hdec : _decode_message (s.buffer.take (3 + msgLen s.buffer + 3)) = false) :
    processLoop s = .error s := by
  rw [processLoop.eq_def, dif_neg h3, if_neg (by simp only [ne_eq, not_not]; exact hp), if_neg h6, if_neg hfl,
    if_pos hcrc, if_neg (by simp [hdec])]

theorem processLoop_frame_bad (s : DecoderState) (h3 : ¬ s.buffer.length < 3)
    (hp : s.buffer.getD 0 0 = 0xD3) (h6 : ¬ s.buffer.length < 6)
    (hfl : ¬ s.buffer.length < 3 + msgLen s.buffer + 3)
    (hcrc : _verify_crc (s.buffer.take (3 + msgLen s.buffer + 3)) = false) :
    processLoop s = processLoop ⟨s.buffer.drop (3 + msgLen s.buffer + 3),
      s.msg_count, s.error_count + 1, s.decoded⟩ := by
  rw [processLoop.eq_def, dif_neg h3, if_neg (by simp only [ne_eq, not_not]; exact hp), if_neg h6, if_neg hfl,
    if_neg (by simp [hcrc])]

/-- `self.buffer.extend(data)` at the start of `process`. -/
def extendS (s : DecoderState) (d : List Nat) : DecoderState :=
  ⟨s.buffer ++ d, s.msg_count, s.error_count, s.decoded⟩

/-- The decoder object's attribute state carried by a loop result, whether the
call returned normally or raised. -/
def stateOf : Except DecoderState DecoderState → DecoderState
  | .ok s => s
  | .error s => s

/-- `RTCMDecoder.process(data)`: append `data` to the buffer, then run the
frame-extraction loop. -/
def process (s : DecoderState) (data : List Nat) : Except DecoderState DecoderState :=
  processLoop (extendS s data)

/-- The decoder object state after a `process` call. -/
def feedS (s : DecoderState) (data : List Nat) : DecoderState := stateOf (process s data)

/-- A freshly constructed `RTCMDecoder()`. -/
def freshDecoder : DecoderState := ⟨[], 0, 0, []⟩

theorem tail_append_of_ne_nil {α : Type} {l l' : List α} (h : l ≠ []) :
    (l ++ l').tail = l.tail ++ l' := by
  cases l with
  | nil => exact absurd rfl h
  | cons a t => simp

theorem msgLen_append {B e : List Nat} (h : 3 ≤ B.length) : msgLen (B ++ e) = msgLen B := by
  unfold msgLen
  rw [List.getD_append _ _ _ _ (by omega), List.getD_append _ _ _ _ (by omega)]

/-- Appending further input commutes with running the loop: running the loop on
`buffer ++ e` is the same as first running it on `buffer` alone (keeping the
state it stops or raises with) and then running it with `e` appended. -/
theorem processLoop_extend_aux (e : List Nat) : ∀ (n : Nat) (s : DecoderState),
    s.buffer.length ≤ n →
    processLoop (extendS s e) = processLoop (extendS (stateOf (processLoop s)) e) := by
  intro n
  induction n with
  | zero =>
    intro s hle
    rw [processLoop_stop_short s (by omega)]
    rfl
  | succ n ih =>
    intro s hle
    by_cases h3 : s.buffer.length < 3
    · rw [processLoop_stop_short s h3]
      rfl
    · have hne : s.buffer ≠ [] := by
        intro hnil
        rw [hnil] at h3
        simp at h3
      by_cases hp : s.buffer.getD 0 0 ≠ 0xD3
      · have h3' : ¬ (s.buffer ++ e).length < 3 := by
          rw [List.length_append]; omega
        have hp' : (s.buffer ++ e).getD 0 0 ≠ 0xD3 := by
          rw [List.getD_append _ _ _ _ (by omega)]; exact hp
        have hlhs : processLoop (extendS s e)
            = processLoop (extendS ⟨s.buffer.tail, s.msg_count, s.error_count, s.decoded⟩ e) := by
          rw [processLoop_skip (extendS s e) h3' hp']
          congr 1
          simp only [extendS]
          rw [tail_append_of_ne_nil hne]
        rw [hlhs, processLoop_skip s h3 hp]
        exact ih ⟨s.buffer.tail, s.msg_count, s.error_count, s.decoded⟩
          (by show s.buffer.tail.length ≤ n; rw [List.length_tail]; omega)
      · have hpe : s.buffer.getD 0 0 = 0xD3 := not_ne_iff.mp hp
        by_cases h6 : s.buffer.length < 6
        · rw [processLoop_stop_header s h3 hpe h6]
          rfl
        · by_cases hfl : s.buffer.length < 3 + msgLen s.buffer + 3
          · rw [processLoop_stop_incomplete s h3 hpe h6 hfl]
            rfl
          · have h3' : ¬ (s.buffer ++ e).length < 3 := by
              rw [List.length_append]; omega
            have hpe' : (s.buffer ++ e).getD 0 0 = 0xD3 := by
              rw [List.getD_append _ _ _ _ (by omega)]; exact hpe
            have h6' : ¬ (s.buffer ++ e).length < 6 := by
              rw [List.length_append]; omega
            have hml : msgLen (s.buffer ++ e) = msgLen s.buffer := msgLen_append (by omega)
            have hfl' : ¬ (s.buffer ++ e).length < 3 + msgLen (s.buffer ++ e) + 3 := by
              rw [hml, List.length_append]; omega
            have htake2 : (s.buffer ++ e).take (3 + msgLen s.buffer + 3)
                = s.buffer.take (3 + msgLen s.buffer + 3) :=
              List.take_append_of_le_length (by omega)
            have hdrop2 : (s.buffer ++ e).drop (3 + msgLen s.buffer + 3)
                = s.buffer.drop (3 + msgLen s.buffer + 3) ++ e :=
              List.drop_append_of_le_length (by omega)
            by_cases hcrc : _verify_crc (s.buffer.take (3 + msgLen s.buffer + 3)) = true
            · by_cases hdec : _decode_message (s.buffer.take (3 + msgLen s.buffer + 3)) = true
              · rw [processLoop_frame_ok (extendS s e) h3' hpe' h6' hfl'
                    (by show _verify_crc ((s.buffer ++ e).take (3 + msgLen (s.buffer ++ e) + 3)) = true
                        rw [hml, htake2]; exact hcrc)
                    (by show _decode_message ((s.buffer ++ e).take (3 + msgLen (s.buffer ++ e) + 3)) = true
                        rw [hml, htake2]; exact hdec),
                  processLoop_frame_ok s h3 hpe h6 hfl hcrc hdec]
                rw [← ih ⟨s.buffer.drop (3 + msgLen s.buffer + 3), s.msg_count + 1, s.error_count,
                      s.decoded ++ [s.buffer.take (3 + msgLen s.buffer + 3)]⟩
                    (by show (s.buffer.drop (3 + msgLen s.buffer + 3)).length ≤ n
                        rw [List.length_drop]; omega)]
                congr 1
                simp only [extendS, hml, htake2, hdrop2]
              · have hdec' : _decode_message (s.buffer.take (3 + msgLen s.buffer + 3)) = false := by
                  simpa using hdec
                rw [processLoop_frame_raise s h3 hpe h6 hfl hcrc hdec']
                rfl
            · have hcrc' : _verify_crc (s.buffer.take (3 + msgLen s.buffer + 3)) = false := by
                simpa using hcrc
              rw [processLoop_frame_bad (extendS s e) h3' hpe' h6' hfl'
                  (by show _verify_crc ((s.buffer ++ e).take (3 + msgLen (s.buffer ++ e) + 3)) = false
                      rw [hml, htake2]; exact hcrc'),
                processLoop_frame_bad s h3 hpe h6 hfl hcrc']
              rw [← ih ⟨s.buffer.drop (3 + msgLen s.buffer + 3), s.msg_count, s.error_count + 1,
                    s.decoded⟩
                  (by show (s.buffer.drop (3 + msgLen s.buffer + 3)).length ≤ n
                      rw [List.length_drop]; omega)]
              congr 1
              simp only [extendS, hml, hdrop2]

/-- Two consecutive `process` calls leave the decoder in the same state as one
call on the concatenated data. -/
theorem feedS_append (s : DecoderState) (d e : List Nat) :
    feedS (feedS s d) e = feedS s (d ++ e) := by
  unfold feedS process
  have h := processLoop_extend_aux e (extendS s d).buffer.length (extendS s d) (le_refl _)
  rw [← h]
  rw [show extendS (extendS s d) e = extendS s (d ++ e) from by simp [extendS]]

theorem feedS_foldl : ∀ (chunks : List (List Nat)) (s : DecoderState) (d : List Nat),
    chunks.foldl feedS (feedS s d) = feedS s (d ++ chunks.flatten) := by
  intro chunks
  induction chunks with
  | nil =>
    intro s d
    simp
  | cons c cs ih =>
    intro s d
    rw [List.foldl_cons, ih (feedS s d) c, feedS_append]
    simp [List.append_assoc]

/-- C4: chunking invariance of the decoder.  Feeding a byte sequence to
`process` as any list of chunks, one call per chunk and in order, yields the
same decoded frames and the same final `msg_count` and `error_count` as
feeding the whole sequence in a single call, both runs starting from a fresh
decoder. -/
theorem process_chunking_invariance (chunks : List (List Nat)) :
    (chunks.foldl feedS freshDecoder).decoded = (feedS freshDecoder chunks.flatten).decoded ∧
    (chunks.foldl feedS freshDecoder).msg_count = (feedS freshDecoder chunks.flatten).msg_count ∧
    (chunks.foldl feedS freshDecoder).error_count
      = (feedS freshDecoder chunks.flatten).error_count := by
  have h0 : feedS freshDecoder [] = freshDecoder := by
    unfold feedS process
    rw [processLoop_stop_short (extendS freshDecoder []) (by decide)]
    rfl
  have h := feedS_foldl chunks freshDecoder []
  rw [h0] at h
  rw [h]
  simp

/-- C3: when a complete candidate frame with a mismatching trailing CRC sits at
the scan position, the loop increments `error_count` by one, leaves
`msg_count` (and the decoded-frame log) unchanged, and removes exactly the
declared frame length from the buffer before continuing. -/
theorem crc_failure_step (frame rest : List Nat) (m e : Nat) (dec : List (List Nat))
    (hhead : frame.getD 0 0 = 0xD3) (hlen : frame.length = 3 + msgLen frame + 3)
    (hcrc : _verify_crc frame = false) :
    processLoop ⟨frame ++ rest, m, e, dec⟩ = processLoop ⟨rest, m, e + 1, dec⟩ := by
  have hml : msgLen (frame ++ rest) = msgLen frame := msgLen_append (by omega)
  have h3' : ¬ (frame ++ rest).length < 3 := by rw [List.length_append]; omega
  have hp' : (frame ++ rest).getD 0 0 = 0xD3 := by
    rw [List.getD_append _ _ _ _ (by omega)]; exact hhead
  have h6' : ¬ (frame ++ rest).length < 6 := by rw [List.length_append]; omega
  have hfl' : ¬ (frame ++ rest).length < 3 + msgLen (frame ++ rest) + 3 := by
    rw [hml, List.length_append]; omega
  have htake : (frame ++ rest).take (3 + msgLen (frame ++ rest) + 3) = frame := by
    rw [hml, ← hlen, List.take_append_of_le_length (le_refl _), List.take_length]
  have hdrop : (frame ++ rest).drop (3 + msgLen (frame ++ rest) + 3) = rest := by
    rw [hml, ← hlen, List.drop_append_of_le_length (le_refl _), List.drop_length]
    simp
  rw [processLoop_frame_bad ⟨frame ++ rest, m, e, dec⟩ h3' hp' h6' hfl'
    (by show _verify_crc ((frame ++ rest).take (3 + msgLen (frame ++ rest) + 3)) = false
        rw [htake]; exact hcrc)]
  rw [show ((⟨frame ++ rest, m, e, dec⟩ : DecoderState).buffer.drop
        (3 + msgLen (⟨frame ++ rest, m, e, dec⟩ : DecoderState).buffer + 3)) = rest from hdrop]

/-- The spec's sample frame: header `D3 00 03`, a 3-byte payload whose first
12 bits encode message type 1005, followed by its correct CRC-24Q. -/
def frame1005 : List Nat :=
  [0xD3, 0x00, 0x03, 0x3E, 0xD0, 0x00] ++
    [(_crc24q [0xD3, 0x00, 0x03, 0x3E, 0xD0, 0x00] >>> 16) &&& 0xFF,
     (_crc24q [0xD3, 0x00, 0x03, 0x3E, 0xD0, 0x00] >>> 8) &&& 0xFF,
     _crc24q [0xD3, 0x00, 0x03, 0x3E, 0xD0, 0x00] &&& 0xFF]

/-- `frame1005` with its last CRC byte flipped bitwise. -/
def frame1005_flipped : List Nat :=
  frame1005.dropLast ++ [(frame1005.getD 8 0) ^^^ 0xFF]

set_option maxRecDepth 4000 in
theorem crc_failure_step_witness :
    processLoop ⟨frame1005_flipped, 0, 0, []⟩ = .ok ⟨[], 0, 1, []⟩ := by
  have h := crc_failure_step frame1005_flipped [] 0 0 [] (by decide) (by decide) (by decide)
  rw [List.append_nil] at h
  rw [h, processLoop_stop_short ⟨[], 0, 1, []⟩ (by decide)]

/-- C7 as stated is false: a single garbage byte fed to a fresh decoder stays
in the buffer (the scan loop only runs while at least 3 bytes are buffered),
so the buffer on return is neither empty nor starts with `0xD3`. -/
theorem process_resync_counterexample :
    process freshDecoder [0x00] = .ok ⟨[0x00], 0, 0, []⟩ ∧
    ¬ (([0x00] : List Nat) = [] ∨ ([0x00] : List Nat).getD 0 0 = 0xD3) := by
  constructor
  · unfold process
    rw [processLoop_stop_short (extendS freshDecoder [0x00]) (by decide)]
    rfl
  · decide

/-- Loop invariant behind the resynchronisation property: a normally returned
loop state has a buffer that is shorter than 3 bytes or preamble-headed. -/
theorem processLoop_ok_resync : ∀ (n : Nat) (s s' : DecoderState), s.buffer.length ≤ n →
    processLoop s = .ok s' → s'.buffer.length < 3 ∨ s'.buffer.getD 0 0 = 0xD3 := by
  intro n
  induction n with
  | zero =>
    intro s s' hle h
    rw [processLoop_stop_short s (by omega)] at h
    cases h
    left
    omega
  | succ n ih =>
    intro s s' hle h
    by_cases h3 : s.buffer.length < 3
    · rw [processLoop_stop_short s h3] at h
      cases h
      left
      exact h3
    · by_cases hp : s.buffer.getD 0 0 ≠ 0xD3
      · rw [processLoop_skip s h3 hp] at h
        exact ih _ _ (by show s.buffer.tail.length ≤ n; rw [List.length_tail]; omega) h
      · have hpe : s.buffer.getD 0 0 = 0xD3 := not_ne_iff.mp hp
        by_cases h6 : s.buffer.length < 6
        · rw [processLoop_stop_header s h3 hpe h6] at h
          cases h
          right
          exact hpe
        · by_cases hfl : s.buffer.length < 3 + msgLen s.buffer + 3
          · rw [processLoop_stop_incomplete s h3 hpe h6 hfl] at h
            cases h
            right
            exact hpe
          · by_cases hcrc : _verify_crc (s.buffer.take (3 + msgLen s.buffer + 3)) = true
            · by_cases hdec : _decode_message (s.buffer.take (3 + msgLen s.buffer + 3)) = true
              · rw [processLoop_frame_ok s h3 hpe h6 hfl hcrc hdec] at h
                exact ih _ _ (by show (s.buffer.drop (3 + msgLen s.buffer + 3)).length ≤ n
                                 rw [List.length_drop]; omega) h
              · rw [processLoop_frame_raise s h3 hpe h6 hfl hcrc (by simpa using hdec)] at h
                cases h
            · rw [processLoop_frame_bad s h3 hpe h6 hfl (by simpa using hcrc)] at h
              exact ih _ _ (by show (s.buffer.drop (3 + msgLen s.buffer + 3)).length ≤ n
                               rw [List.length_drop]; omega) h

/-- C7 (amended): after every `process` call that returns normally, the buffer
either holds fewer than 3 bytes (too short for the scan loop to run) or
begins with the preamble byte `0xD3`. -/
theorem process_buffer_resync (s s' : DecoderState) (d : List Nat)
    (h : process s d = .ok s') :
    s'.buffer.length < 3 ∨ s'.buffer.getD 0 0 = 0xD3 :=
  processLoop_ok_resync (extendS s d).buffer.length (extendS s d) s' (le_refl _) h

theorem process_buffer_resync_witness :
    (([0xD3] : List Nat).length < 3 ∨ ([0xD3] : List Nat).getD 0 0 = 0xD3) :=
  process_buffer_resync freshDecoder ⟨[0xD3], 0, 0, []⟩ [0xD3]
    (by unfold process
        rw [processLoop_stop_short (extendS freshDecoder [0xD3]) (by decide)]
        rfl)

/-- The degenerate frame `D3 00 00` (declared payload length 0) followed by
its correct CRC-24Q. -/
def frameEmptyPayload : List Nat :=
  [0xD3, 0x00, 0x00] ++
    [(_crc24q [0xD3, 0x00, 0x00] >>> 16) &&& 0xFF,
     (_crc24q [0xD3, 0x00, 0x00] >>> 8) &&& 0xFF,
     _crc24q [0xD3, 0x00, 0x00] &&& 0xFF]

/-- C10: for every CRC-valid frame with payload length at least 3, every
payload access in `_decode_message` is in bounds, so the decode completes; and
on the concrete CRC-valid empty-payload frame `D3 00 00` plus CRC, the
message-type extraction indexes out of bounds and the loop raises with the
frame still buffered and nothing counted. -/
theorem decode_message_totality (frame : List Nat)
    (hcrc : _verify_crc frame = true)
    (hlen : frame.length = 3 + msgLen frame + 3)
    (hpl : 3 ≤ msgLen frame) :
    _decode_message frame = true ∧
    processLoop ⟨frameEmptyPayload, 0, 0, []⟩ = .error ⟨frameEmptyPayload, 0, 0, []⟩ := by
  constructor
  · have hplen : ((frame.take (frame.length - 3)).drop 3).length = msgLen frame := by
      rw [List.length_drop, List.length_take]
      omega
    have h2 : ¬ msgLen frame < 2 := by omega
    simp only [_decode_message]
    rw [hplen]
    simp [h2, hpl]
  · rw [processLoop_frame_raise ⟨frameEmptyPayload, 0, 0, []⟩ (by decide) (by decide)
      (by decide) (by decide) (by decide) (by decide)]

set_option maxRecDepth 4000 in
theorem decode_message_totality_witness :
    _decode_message frame1005 = true ∧
    processLoop ⟨frameEmptyPayload, 0, 0, []⟩ = .error ⟨frameEmptyPayload, 0, 0, []⟩ :=
  decode_message_totality frame1005 (by decide) (by decide) (by decide)

/-! ## NTRIP caster client (`NTRIPCaster`) -/

/-- Python substring containment `pat in hay` for text. -/
def containsSub (hay pat : List Char) : Bool :=
  (List.range (hay.length + 1)).any (fun i => ((hay.drop i).take pat.length) == pat)

/-- Outcome of `NTRIPCaster.connect`: return value `True`, the retry string,
or `False` in the source. -/
inductive ConnectOutcome
  | Connected
  | ConflictRetry
  | Failed
deriving DecidableEq, Repr

/-- Response classification of `NTRIPCaster.connect`, starting from a
disconnected session.  `none` models a transport error during connect (the
`except` path).  The result is the returned outcome, the `connected` flag and
whether the transport handle is still held (`self.socket is not None`). -/
def ntrip_connect (response : Option (List Char)) : ConnectOutcome × Bool × Bool :=
  match response with
  | none => (.Failed, false, false)
  | some r =>
    if containsSub r "ICY 200 OK".toList || containsSub r "HTTP/1.1 200 OK".toList then
      (.Connected, true, true)
    else if containsSub r "HTTP/1.1 409".toList || containsSub r "HTTP/1.0 409".toList then
      (.ConflictRetry, false, false)
    else
      (.Failed, false, false)

/-- C2 as stated is false: the response text `HTTP/1.1 200 OK` contains
neither `HTTP/1.1 409` nor `ICY 200 OK`, yet `connect` classifies it as
`Connected`, not `Failed`. -/
theorem ntrip_connect_claim_counterexample :
    containsSub "HTTP/1.1 200 OK".toList "HTTP/1.1 409".toList = false ∧
    containsSub "HTTP/1.1 200 OK".toList "ICY 200 OK".toList = false ∧
    (ntrip_connect (some "HTTP/1.1 200 OK".toList)).1 = .Connected ∧
    ConnectOutcome.Connected ≠ ConnectOutcome.Failed := by decide

/-- C2 (amended): `connect` classifies with the branch priority of the source:
a response containing `ICY 200 OK` or `HTTP/1.1 200 OK` yields `Connected`
with the connected flag set; otherwise one containing `HTTP/1.1 409` or
`HTTP/1.0 409` yields `ConflictRetry` with the transport closed; otherwise
(including a transport error during connect) the result is `Failed`. -/
theorem ntrip_connect_classification (r : List Char) :
    ((containsSub r "ICY 200 OK".toList = true ∨
        containsSub r "HTTP/1.1 200 OK".toList = true) →
      ntrip_connect (some r) = (.Connected, true, true)) ∧
    (containsSub r "ICY 200 OK".toList = false →
      containsSub r "HTTP/1.1 200 OK".toList = false →
      (containsSub r "HTTP/1.1 409".toList = true ∨
        containsSub r "HTTP/1.0 409".toList = true) →
      ntrip_connect (some r) = (.ConflictRetry, false, false)) ∧
    (containsSub r "ICY 200 OK".toList = false →
      containsSub r "HTTP/1.1 200 OK".toList = false →
      containsSub r "HTTP/1.1 409".toList = false →
      containsSub r "HTTP/1.0 409".toList = false →
      ntrip_connect (some r) = (.Failed, false, false)) ∧
    ntrip_connect none = (.Failed, false, false) := by
  refine ⟨?_, ?_, ?_, rfl⟩
  · intro h
    simp only [ntrip_connect]
    have hc : (containsSub r "ICY 200 OK".toList
        || containsSub r "HTTP/1.1 200 OK".toList) = true := by
      rcases h with h | h <;> rw [h] <;> simp
    rw [if_pos hc]
  · intro h1 h2 h3
    simp only [ntrip_connect]
    have hc1 : ¬ (containsSub r "ICY 200 OK".toList
        || containsSub r "HTTP/1.1 200 OK".toList) = true := by
      rw [h1, h2]; simp
    have hc2 : (containsSub r "HTTP/1.1 409".toList
        || containsSub r "HTTP/1.0 409".toList) = true := by
      rcases h3 with h | h <;> rw [h] <;> simp
    rw [if_neg hc1, if_pos hc2]
  · intro h1 h2 h3 h4
    simp only [ntrip_connect]
    have hc1 : ¬ (containsSub r "ICY 200 OK".toList
        || containsSub r "HTTP/1.1 200 OK".toList) = true := by
      rw [h1, h2]; simp
    have hc2 : ¬ (containsSub r "HTTP/1.1 409".toList
        || containsSub r "HTTP/1.0 409".toList) = true := by
      rw [h3, h4]; simp
    rw [if_neg hc1, if_neg hc2]

theorem ntrip_connect_classification_witness :
    ntrip_connect (some "ICY 200 OK".toList)
      = (ConnectOutcome.Connected, true, true) :=
  (ntrip_connect_classification "ICY 200 OK".toList).1 (Or.inl (by decide))

/-- Transport-related attributes of an `NTRIPCaster` session: the `connected`
flag and whether `self.socket` is non-`None`. -/
structure CasterState where
  connected : Bool
  hasSocket : Bool
deriving DecidableEq, Repr

/-- `NTRIPCaster.send_rtcm(data)`.  `writeOk` models whether the transport
write succeeds (the caught `except` path on failure).  Result: the returned
boolean, the session state afterwards, and whether a write was attempted. -/
def send_rtcm (s : CasterState) (data : List Nat) (writeOk : Bool) :
    Bool × CasterState × Bool :=
  if !s.connected || !s.hasSocket then (false, s, false)
  else if writeOk then (true, s, true)
  else (false, ⟨false, s.hasSocket⟩, true)

/-- C6: `send_rtcm` returns `True` on a successful write from a connected
session leaving `connected` set; on a write failure it clears `connected` and
returns `False` (the exception is caught, not propagated, which the total
model reflects); and when not connected or without a transport handle it
returns `False` without attempting a write. -/
theorem send_rtcm_contract (s : CasterState) (data : List Nat) (writeOk : Bool) :
    (s.connected = true → s.hasSocket = true → writeOk = true →
      send_rtcm s data writeOk = (true, s, true)) ∧
    (s.connected = true → s.hasSocket = true → writeOk = false →
      send_rtcm s data writeOk = (false, ⟨false, s.hasSocket⟩, true)) ∧
    ((s.connected = false ∨ s.hasSocket = false) →
      send_rtcm s data writeOk = (false, s, false)) := by
  obtain ⟨c, k⟩ := s
  cases c <;> cases k <;> cases writeOk <;> simp [send_rtcm]

theorem send_rtcm_contract_witness :
    send_rtcm ⟨true, true⟩ [] true = (true, ⟨true, true⟩, true) :=
  (send_rtcm_contract ⟨true, true⟩ [] true).1 rfl rfl rfl

/-! ## Receiver configuration reconciler (`UM980Config`, `rtcm_params.py`) -/

/-- `RTCM_MESSAGES` from `rtcm_params.py`: the required message identifiers
with their output intervals. -/
def RTCM_MESSAGES : List (List Char × Nat) :=
  [("RTCM1005".toList, 30), ("RTCM1006".toList, 30), ("RTCM1033".toList, 10),
   ("RTCM1019".toList, 10), ("RTCM1020".toList, 10), ("RTCM1042".toList, 10),
   ("RTCM1044".toList, 10), ("RTCM1045".toList, 10), ("RTCM1046".toList, 10),
   ("RTCM1077".toList, 1), ("RTCM1087".toList, 1), ("RTCM1097".toList, 1),
   ("RTCM1107".toList, 1), ("RTCM1117".toList, 1), ("RTCM1127".toList, 1)]

/-- An observed configuration snapshot as built by `get_current_config`:
signal group, SBAS state (`none` when the tag is absent), operating mode
string (`none` when unknown), and the active RTCM messages as
(identifier, port, rate) entries.  The per-port baud map is omitted: the
compare step never reads it. -/
structure ReceiverConfig where
  signal_group : Option Int
  sbas_enabled : Option Bool
  mode : Option (List Char)
  rtcm_messages : List (List Char × List Char × List Char)
deriving DecidableEq, Repr

/-- Python `str.upper()`. -/
def strUpper (s : List Char) : List Char := s.map Char.toUpper

/-- The required identifier catalogue: the first component of every
`RTCM_MESSAGES` entry. -/
def required_rtcm : List (List Char) := RTCM_MESSAGES.map Prod.fst

/-- Embeds the set comprehension in `check_config_matches` selecting the
identifiers of the active messages whose port equals COM2. -/
def active_on_com2 (c : ReceiverConfig) : List (List Char) :=
  (c.rtcm_messages.filter (fun mc => mc.2.1 == "COM2".toList)).map Prod.fst

/-- The set difference `required_rtcm - active_on_com2` computed in
`check_config_matches`. -/
def missingOn (c : ReceiverConfig) : List (List Char) :=
  required_rtcm.filter (fun r => decide (r ∉ active_on_com2 c))

/-- The compare step of `UM980Config.check_config_matches` on an observed
snapshot: result is `(needs_update, missing identifiers in the diagnostic)`.
Mirrors the flags of the source: signal-group inequality, a Python-falsy SBAS
state (unknown or disabled), a known mode whose upper-cased text lacks
`BASE`, and a non-empty missing set on COM2. -/
def check_config_matches (c : ReceiverConfig) (desired_signal_group : Int) :
    Bool × List (List Char) :=
  let b1 : Bool := decide (c.signal_group ≠ some desired_signal_group)
  let b2 : Bool := !(c.sbas_enabled.getD false)
  let b3 : Bool :=
    match c.mode with
    | some m => !(containsSub (strUpper m) "BASE".toList)
    | none => false
  let missing := missingOn c
  (b1 || b2 || b3 || !missing.isEmpty, missing)

/-- The spec's "snapshot matches the desired configuration": signal group 2,
SBAS enabled, operating mode contains the BASE tag, and every required RTCM
identifier active on the data output port COM2. -/
def matchesDesired (c : ReceiverConfig) : Prop :=
  c.signal_group = some 2 ∧ c.sbas_enabled = some true ∧
  (∃ m, c.mode = some m ∧ containsSub (strUpper m) "BASE".toList = true) ∧
  missingOn c = []

/-- All required identifiers active on COM2 at rate 1. -/
def fullCom2Messages : List (List Char × List Char × List Char) :=
  RTCM_MESSAGES.map (fun mt => (mt.1, "COM2".toList, "1".toList))

/-- C5 as stated is false: a snapshot whose operating mode is unknown
(`None`) but is otherwise as desired gets `needs_update = false`, although it
does not match the desired configuration (its mode does not contain the BASE
tag): the source only flags the mode when it is known. -/
theorem check_config_mode_counterexample :
    (check_config_matches ⟨some 2, some true, none, fullCom2Messages⟩ 2).1 = false ∧
    ¬ matchesDesired ⟨some 2, some true, none, fullCom2Messages⟩ := by
  constructor
  · decide
  · intro hmd
    obtain ⟨-, -, ⟨m, hm, -⟩, -⟩ := hmd
    exact Option.noConfusion hm

/-- C5 (amended): `check_config_matches` reports `needs_update = false` exactly
when the signal group equals 2, SBAS is definitely enabled, the operating
mode — when known — contains the BASE tag (an unknown mode is not flagged),
and no required RTCM identifier is missing on COM2; and whenever a required
identifier is not active on COM2, it reports `needs_update = true` with that
identifier in the diagnostic. -/
theorem check_config_matches_characterization (c : ReceiverConfig) :
    ((check_config_matches c 2).1 = false ↔
      (c.signal_group = some 2 ∧ c.sbas_enabled = some true ∧
        (∀ m, c.mode = some m → containsSub (strUpper m) "BASE".toList = true) ∧
        missingOn c = [])) ∧
    (∀ r, r ∈ required_rtcm → r ∉ active_on_com2 c →
      (check_config_matches c 2).1 = true ∧ r ∈ (check_config_matches c 2).2) := by
  have hb1 : (decide (c.signal_group ≠ some (2 : Int))) = false ↔
      c.signal_group = some 2 := by
    rw [decide_eq_false_iff_not, not_ne_iff]
  have hb2 : (!(c.sbas_enabled.getD false)) = false ↔ c.sbas_enabled = some true := by
    cases c.sbas_enabled with
    | none => simp
    | some b => cases b <;> simp
  have hb3 : (match c.mode with
      | some m => !(containsSub (strUpper m) "BASE".toList)
      | none => false) = false ↔
      (∀ m, c.mode = some m → containsSub (strUpper m) "BASE".toList = true) := by
    cases c.mode with
    | none => simp
    | some m => simp
  have hb4 : (!(missingOn c).isEmpty) = false ↔ missingOn c = [] := by
    simp
  constructor
  · simp only [check_config_matches]
    rw [Bool.or_eq_false_iff, Bool.or_eq_false_iff, Bool.or_eq_false_iff,
      hb1, hb2, hb3, hb4]
    simp [and_assoc]
  · intro r hreq hnact
    have hmem : r ∈ missingOn c := by
      rw [missingOn, List.mem_filter]
      exact ⟨hreq, by simpa using hnact⟩
    have hne : missingOn c ≠ [] := List.ne_nil_of_mem hmem
    constructor
    · simp only [check_config_matches]
      have hie : (missingOn c).isEmpty = false := List.isEmpty_eq_false.mpr hne
      rw [hie]
      simp
    · simpa [check_config_matches] using hmem

set_option maxRecDepth 4000 in
theorem check_config_matches_characterization_witness :
    (check_config_matches ⟨some 2, some true, none, fullCom2Messages.tail⟩ 2).1 = true ∧
    "RTCM1005".toList
      ∈ (check_config_matches ⟨some 2, some true, none, fullCom2Messages.tail⟩ 2).2 :=
  (check_config_matches_characterization ⟨some 2, some true, none, fullCom2Messages.tail⟩).2
    "RTCM1005".toList (by decide) (by decide)

/-- The SBAS-related part of `get_current_config`'s CONFIG-response parsing:
fold over the response lines; a line containing both `SBAS` and `CONFIG`
(and not already taken by the earlier SIGNALGROUP branch) sets the field to
`some true` when its upper-cased text contains `ENABLE` and to `some false`
when it contains `DISABLE`; every other line leaves the field unchanged.  The
field starts as `none` (unknown). -/
def parse_sbas (lines : List (List Char)) : Option Bool :=
  lines.foldl (fun acc line =>
    if containsSub line "SIGNALGROUP".toList && containsSub line "CONFIG".toList then acc
    else if containsSub line "SBAS".toList && containsSub line "CONFIG".toList then
      if containsSub (strUpper line) "ENABLE".toList then some true
      else if containsSub (strUpper line) "DISABLE".toList then some false
      else acc
    else acc) none

/-- C8 as stated is false: `check_config_matches` does not distinguish an
unknown SBAS state from a definitely-disabled one — with every other field
equal, the snapshot with `sbas_enabled = none` and the one with
`sbas_enabled = some false` produce identical results (both trigger an
update), because the source only tests whether the SBAS field is Python-falsy. -/
theorem sbas_unknown_vs_disabled_counterexample :
    check_config_matches ⟨some 2, none, some "BASE".toList, fullCom2Messages⟩ 2
      = check_config_matches ⟨some 2, some false, some "BASE".toList, fullCom2Messages⟩ 2 ∧
    (check_config_matches ⟨some 2, none, some "BASE".toList, fullCom2Messages⟩ 2).1 = true ∧
    (⟨some 2, none, some "BASE".toList, fullCom2Messages⟩ : ReceiverConfig).sbas_enabled
      = none ∧
    (⟨some 2, some false, some "BASE".toList, fullCom2Messages⟩ : ReceiverConfig).sbas_enabled
      = some false := by
  refine ⟨rfl, by decide, rfl, rfl⟩

/-- C8 (amended): when no line of the configuration response carries an SBAS
tag, the parsed snapshot records the SBAS state as unknown (`none`) rather
than disabled; but the caller `check_config_matches` treats the unknown state
exactly like a definite disabled state: with all other snapshot fields equal,
both yield the same `needs_update` decision and diagnostic. -/
theorem sbas_unknown_handling (lines : List (List Char))
    (h : ∀ l ∈ lines, containsSub l "SBAS".toList = false) :
    parse_sbas lines = none ∧
    (∀ g m msgs, check_config_matches ⟨g, none, m, msgs⟩ 2
        = check_config_matches ⟨g, some false, m, msgs⟩ 2) := by
  constructor
  · have hgen : ∀ (ls : List (List Char)) (acc : Option Bool),
        (∀ l ∈ ls, containsSub l "SBAS".toList = false) →
        ls.foldl (fun acc line =>
          if containsSub line "SIGNALGROUP".toList && containsSub line "CONFIG".toList then acc
          else if containsSub line "SBAS".toList && containsSub line "CONFIG".toList then
            if containsSub (strUpper line) "ENABLE".toList then some true
            else if containsSub (strUpper line) "DISABLE".toList then some false
            else acc
          else acc) acc = acc := by
      intro ls
      induction ls with
      | nil => intro acc _; rfl
      | cons l t ih =>
        intro acc hall
        rw [List.foldl_cons]
        have hl : containsSub l "SBAS".toList = false := hall l (by simp)
        have hstep : (if containsSub l "SIGNALGROUP".toList
              && containsSub l "CONFIG".toList then acc
            else if containsSub l "SBAS".toList && containsSub l "CONFIG".toList then
              if containsSub (strUpper l) "ENABLE".toList then some true
              else if containsSub (strUpper l) "DISABLE".toList then some false
              else acc
            else acc) = acc := by
          rw [hl]
          simp
        rw [hstep]
        exact ih acc (fun x hx => hall x (by simp [hx]))
    exact hgen lines none h
  · intro g m msgs
    rfl

theorem sbas_unknown_handling_witness :
    parse_sbas ["$CONFIG,ANTENNA,CONFIG ANTENNA POWERON*7A".toList] = none ∧
    check_config_matches ⟨some 2, none, some "BASE".toList, []⟩ 2
      = check_config_matches ⟨some 2, some false, some "BASE".toList, []⟩ 2 :=
  ⟨(sbas_unknown_handling ["$CONFIG,ANTENNA,CONFIG ANTENNA POWERON*7A".toList]
      (by decide)).1,
   (sbas_unknown_handling ["$CONFIG,ANTENNA,CONFIG ANTENNA POWERON*7A".toList]
      (by decide)).2 (some 2) (some "BASE".toList) []⟩

/-- AGC classification result in `UM980Config.get_agc_status`. -/
inductive AgcStatus
  | good
  | bad
  | unknown
deriving DecidableEq, Repr

/-- Per-band classification in `get_agc_status`: `-1` is the unknown sentinel;
`0 <= value < good_max` is good; everything else is bad. -/
def classify_agc (value : Int) (good_max : Int) : AgcStatus :=
  if value = -1 then .unknown
  else if 0 ≤ value ∧ value < good_max then .good
  else .bad

/-- C9 as stated is false: the reading −2 with the default threshold 10 is
classified `bad` by the source, yet −2 ≥ 10 does not hold, and it is neither
`good` nor `unknown` — so under the claimed tri-partition it would belong to
no class. -/
theorem agc_negative_counterexample :
    classify_agc (-2) 10 = .bad ∧ ¬ ((-2 : Int) ≥ 10) ∧
    classify_agc (-2) 10 ≠ .good ∧ classify_agc (-2) 10 ≠ .unknown := by
  decide

/-- C9 (amended): `good` exactly when 0 ≤ v < threshold, `unknown` exactly
when v is the sentinel −1, and `bad` exactly when v is neither the sentinel
nor in the good range — that is, v ≥ threshold or v is a negative value other
than −1; the three classes partition all readings. -/
theorem agc_classification (v t : Int) :
    (classify_agc v t = .good ↔ (0 ≤ v ∧ v < t)) ∧
    (classify_agc v t = .unknown ↔ v = -1) ∧
    (classify_agc v t = .bad ↔ (v ≠ -1 ∧ ¬ (0 ≤ v ∧ v < t))) := by
  by_cases h1 : v = -1
  · subst h1
    refine ⟨?_, ?_, ?_⟩ <;> simp [classify_agc]
  · by_cases h2 : 0 ≤ v ∧ v < t
    · refine ⟨?_, ?_, ?_⟩ <;> simp [classify_agc, h1, h2]
    · refine ⟨?_, ?_, ?_⟩ <;> simp [classify_agc, h1, h2]
